import Mathlib

/-!
Verification of the Jenkins pipeline repository (nodejs-demo-app).

The development shallowly embeds:
* the derived values of the Deploy-and-Test (probe) stage of src/Jenkinsfile
  (container name and external test port, both produced by Groovy string
  interpolation of the run identifier BUILD_NUMBER);
* the pipeline itself as a sequence of stages of shell commands, executed
  fail-fast over a state of running containers and registry-login status,
  with the unconditional post-always cleanup block;
* the Express application of src/app.js (one route, GET on the root path).
-/

namespace NodeDemo

/-! ### Decimal rendering of the run identifier

Groovy string interpolation renders BUILD_NUMBER as its decimal numeral.
We model a numeral as its list of decimal digits, most significant first,
together with the numeric value a consumer (the container runtime's port
mapping, the HTTP client's URL) parses back from it. -/

/-- Digits of a positive number, least significant first, computed with
explicit fuel so that the definition reduces in the kernel. -/
def decDigitsRev (fuel : Nat) (n : Nat) : List Nat :=
  match fuel with
  | 0 => []
  | f + 1 => if n = 0 then [] else n % 10 :: decDigitsRev f (n / 10)

/-- Big-endian decimal digits of a number, as rendered by string
interpolation; zero renders as the single digit zero. -/
def decDigits (n : Nat) : List Nat :=
  if n = 0 then [0] else (decDigitsRev n n).reverse

/-- Numeric value of a big-endian digit list: how a decimal numeral string
is parsed back into a number. -/
def digitsVal (ds : List Nat) : Nat :=
  ds.foldl (fun x d => 10 * x + d) 0

/-- Decimal rendering of a number as a string (digit characters). -/
def decString (n : Nat) : String :=
  String.mk ((decDigits n).map Nat.digitChar)

/-! ### The derived values of the probe stage (src/Jenkinsfile, lines 45-46)

Line 45 interpolates the run identifier after the fixed text
nodejs-test-, line 46 interpolates the FULL run identifier after the
fixed digits 9 and 0 (there is no modulo in src/Jenkinsfile). -/

/-- Container name of src/Jenkinsfile line 45: the fixed text
nodejs-test- followed by the decimal rendering of BUILD_NUMBER. -/
def containerName (n : Nat) : String :=
  "nodejs-test-" ++ decString n

/-- Digit string of the test port of src/Jenkinsfile line 46: the digits
9 and 0 followed by the decimal rendering of the full BUILD_NUMBER. -/
def testPortDigits (n : Nat) : List Nat :=
  [9, 0] ++ decDigits n

/-- Numeric port parsed from the interpolated port string of
src/Jenkinsfile line 46 by the container runtime and the HTTP client. -/
def testPort (n : Nat) : Nat :=
  digitsVal (testPortDigits n)

/-- Port variant of the pipeline listing embedded in the README
(src/unnamed/part_001 line 91): the digits 9, 0 and 9 followed by the
decimal rendering of BUILD_NUMBER modulo 100. -/
def testPortReadme (n : Nat) : Nat :=
  digitsVal ([9, 0, 9] ++ decDigits (n % 100))

/-! ### Lemmas on decimal rendering -/

theorem decDigitsRev_eq_digits : ∀ (fuel n : Nat), n ≤ fuel →
    decDigitsRev fuel n = Nat.digits 10 n := by
  intro fuel
  induction fuel with
  | zero =>
    intro n hn
    interval_cases n
    simp [decDigitsRev]
  | succ f ih =>
    intro n hn
    by_cases h0 : n = 0
    · subst h0
      simp [decDigitsRev]
    · have hdiv : n / 10 < n := Nat.div_lt_self (Nat.pos_of_ne_zero h0) (by norm_num)
      rw [decDigitsRev, if_neg h0,
        Nat.digits_def' (by norm_num : (1 : Nat) < 10) (Nat.pos_of_ne_zero h0)]
      congr 1
      exact ih (n / 10) (by omega)

theorem decDigits_eq (n : Nat) (h : n ≠ 0) :
    decDigits n = (Nat.digits 10 n).reverse := by
  rw [decDigits, if_neg h, decDigitsRev_eq_digits n n le_rfl]

theorem digitsVal_cons (d : Nat) (ds : List Nat) :
    digitsVal (d :: ds) = ds.foldl (fun x e => 10 * x + e) d := by
  simp [digitsVal]

theorem foldl_digitsVal (ds : List Nat) : ∀ a : Nat,
    ds.foldl (fun x d => 10 * x + d) a = a * 10 ^ ds.length + digitsVal ds := by
  induction ds with
  | nil =>
    intro a
    simp [digitsVal]
  | cons d ds ih =>
    intro a
    simp only [List.foldl_cons, List.length_cons]
    rw [ih (10 * a + d), digitsVal_cons, ih d]
    ring

theorem digitsVal_append (l1 l2 : List Nat) :
    digitsVal (l1 ++ l2) = digitsVal l1 * 10 ^ l2.length + digitsVal l2 := by
  simp only [digitsVal, List.foldl_append]
  exact foldl_digitsVal l2 _

theorem digitsVal_reverse (l : List Nat) :
    digitsVal l.reverse = Nat.ofDigits 10 l := by
  induction l with
  | nil => simp [digitsVal, Nat.ofDigits]
  | cons d l ih =>
    rw [List.reverse_cons, digitsVal_append, ih, Nat.ofDigits]
    simp [digitsVal]
    ring

theorem digitsVal_decDigits (n : Nat) : digitsVal (decDigits n) = n := by
  by_cases h : n = 0
  · subst h
    simp [decDigits, digitsVal]
  · rw [decDigits_eq n h, digitsVal_reverse, Nat.ofDigits_digits]

theorem decDigits_injective : Function.Injective decDigits := by
  intro a b h
  have ha := digitsVal_decDigits a
  rw [h, digitsVal_decDigits] at ha
  exact ha.symm

theorem lt_pow_decDigits_length (n : Nat) : n < 10 ^ (decDigits n).length := by
  by_cases h : n = 0
  · subst h
    norm_num [decDigits]
  · rw [decDigits_eq n h, List.length_reverse]
    exact Nat.lt_base_pow_length_digits (by norm_num)

theorem decDigits_length_pos (n : Nat) : 1 ≤ (decDigits n).length := by
  by_cases h : n = 0
  · subst h
    simp [decDigits]
  · rw [decDigits_eq n h, List.length_reverse]
    exact List.length_pos.mpr (Nat.digits_ne_nil_iff_ne_zero.mpr h)

theorem decDigits_length_ge_three (n : Nat) (h : 100 ≤ n) :
    3 ≤ (decDigits n).length := by
  by_contra hlt
  push_neg at hlt
  have h1 : n < 10 ^ (decDigits n).length := lt_pow_decDigits_length n
  have h2 : (10 : Nat) ^ (decDigits n).length ≤ 10 ^ 2 :=
    Nat.pow_le_pow_right (by norm_num) (by omega)
  have h3 : (10 : Nat) ^ 2 = 100 := by norm_num
  omega

theorem decDigits_length_le_two (n : Nat) (h : n < 100) :
    (decDigits n).length ≤ 2 := by
  by_cases h0 : n = 0
  · subst h0
    simp [decDigits]
  · rw [decDigits_eq n h0, List.length_reverse]
    by_contra hl
    push_neg at hl
    have h2 := Nat.base_pow_length_digits_le 10 n (by norm_num) h0
    have h3 : (10 : Nat) ^ 3 ≤ 10 ^ (Nat.digits 10 n).length :=
      Nat.pow_le_pow_right (by norm_num) (by omega)
    have h4 : (10 : Nat) ^ 3 = 1000 := by norm_num
    omega

theorem testPort_eq (n : Nat) :
    testPort n = 90 * 10 ^ (decDigits n).length + n := by
  rw [testPort, testPortDigits, digitsVal_append, digitsVal_decDigits]
  norm_num [digitsVal]

theorem testPort_gt_of_ge (n : Nat) (h : 100 ≤ n) : 65535 < testPort n := by
  rw [testPort_eq]
  have h3 := decDigits_length_ge_three n h
  have h4 : (10 : Nat) ^ 3 ≤ 10 ^ (decDigits n).length :=
    Nat.pow_le_pow_right (by norm_num) h3
  have h5 : (10 : Nat) ^ 3 = 1000 := by norm_num
  omega

theorem testPort_le_of_lt (n : Nat) (h : n < 100) : testPort n ≤ 65535 := by
  rw [testPort_eq]
  have h2 := decDigits_length_le_two n h
  have h3 : (10 : Nat) ^ (decDigits n).length ≤ 10 ^ 2 :=
    Nat.pow_le_pow_right (by norm_num) h2
  have h4 : (10 : Nat) ^ 2 = 100 := by norm_num
  omega

theorem testPort_lt_of_length_lt (a b : Nat)
    (h : (decDigits a).length < (decDigits b).length) :
    testPort a < testPort b := by
  have ha : a < 10 ^ (decDigits a).length := lt_pow_decDigits_length a
  have hmono : (10 : Nat) ^ (decDigits a).length ≤ 10 ^ ((decDigits b).length - 1) :=
    Nat.pow_le_pow_right (by norm_num) (by omega)
  have hpb : (10 : Nat) ^ (decDigits b).length =
      10 * 10 ^ ((decDigits b).length - 1) := by
    conv_lhs => rw [show (decDigits b).length = ((decDigits b).length - 1) + 1 from by omega]
    rw [pow_succ]
    ring
  rw [testPort_eq, testPort_eq]
  omega

theorem testPort_injective : Function.Injective testPort := by
  intro a b h
  rcases Nat.lt_trichotomy (decDigits a).length (decDigits b).length with hl | hl | hl
  · exact absurd h (Nat.ne_of_lt (testPort_lt_of_length_lt a b hl))
  · rw [testPort_eq, testPort_eq, hl] at h
    omega
  · exact absurd h.symm (Nat.ne_of_lt (testPort_lt_of_length_lt b a hl))

theorem decDigits_lt_ten (n : Nat) : ∀ d ∈ decDigits n, d < 10 := by
  by_cases h : n = 0
  · subst h
    simp [decDigits]
  · rw [decDigits_eq n h]
    intro d hd
    rw [List.mem_reverse] at hd
    exact Nat.digits_lt_base (by norm_num) hd

theorem digitChar_inj_lt : ∀ d, d < 10 → ∀ e, e < 10 →
    Nat.digitChar d = Nat.digitChar e → d = e := by
  decide

theorem map_digitChar_inj : ∀ ds es : List Nat,
    (∀ d ∈ ds, d < 10) → (∀ e ∈ es, e < 10) →
    ds.map Nat.digitChar = es.map Nat.digitChar → ds = es := by
  intro ds
  induction ds with
  | nil =>
    intro es _ _ h
    cases es with
    | nil => rfl
    | cons e es => simp at h
  | cons d ds ih =>
    intro es hds hes h
    cases es with
    | nil => simp at h
    | cons e es =>
      simp only [List.map_cons, List.cons.injEq] at h
      have hde := digitChar_inj_lt d (hds d (List.mem_cons_self d ds))
        e (hes e (List.mem_cons_self e es)) h.1
      subst hde
      rw [ih es (fun x hx => hds x (List.mem_cons_of_mem d hx))
        (fun x hx => hes x (List.mem_cons_of_mem d hx)) h.2]

theorem containerName_injective : Function.Injective containerName := by
  intro a b h
  have hdata := congrArg String.data h
  simp only [containerName, decString, String.data_append] at hdata
  have hmap := List.append_cancel_left hdata
  exact decDigits_injective
    (map_digitChar_inj _ _ (decDigits_lt_ten a) (decDigits_lt_ten b) hmap)

/-! ### The pipeline of src/Jenkinsfile as a sequence of stages

A stage is a list of commands; the orchestrator executes stages in order,
aborts the run at the first failing command, and unconditionally runs the
post-always block afterwards.  The state tracks the containers running on
the host and the registry-login status; the environment records which of
the external commands succeed in a given run. -/

/-- Shell-level commands issued by src/Jenkinsfile. -/
inductive Cmd where
  | echo (msg : String)
  | npmCi
  | npmTest
  | dockerBuild (tag : String)
  | dockerLogin
  | dockerPush (tag : String)
  | dockerRun (port : Nat) (cname : String) (tag : String)
  | sleep (secs : Nat)
  | curl (port : Nat)
  | dockerStop (cname : String)
  | dockerLogout
deriving DecidableEq

/-- Outcome of the external tools in one run: which commands succeed. -/
structure Env where
  npmCiOk : Bool
  npmTestOk : Bool
  buildOk : Bool
  loginOk : Bool
  pushOk : Bool
  runOk : Bool
  curlOk : Bool
deriving DecidableEq

/-- Host state: running containers and registry-login status. -/
structure PState where
  running : List String
  loggedIn : Bool
deriving DecidableEq

/-- Effect of one command: none means the command exited non-zero.
docker run with the rm and d flags starts a background container; docker
stop of such a container stops and removes it (the rm flag). -/
def execCmd (env : Env) (s : PState) : Cmd → Option PState
  | .echo _ => some s
  | .npmCi => if env.npmCiOk then some s else none
  | .npmTest => if env.npmTestOk then some s else none
  | .dockerBuild _ => if env.buildOk then some s else none
  | .dockerLogin => if env.loginOk then some ⟨s.running, true⟩ else none
  | .dockerPush _ => if env.pushOk then some s else none
  | .dockerRun _ cname _ => if env.runOk then some ⟨cname :: s.running, s.loggedIn⟩ else none
  | .sleep _ => some s
  | .curl _ => if env.curlOk then some s else none
  | .dockerStop cname => some ⟨s.running.erase cname, s.loggedIn⟩
  | .dockerLogout => some ⟨s.running, false⟩

/-- Run the commands of one stage in order, stopping at the first failure.
Returns the final state, the trace of commands that were started (the
failing one included), and whether the stage succeeded. -/
def runCmds (env : Env) : PState → List Cmd → PState × List Cmd × Bool
  | s, [] => (s, [], true)
  | s, c :: cs =>
    match execCmd env s c with
    | none => (s, [c], false)
    | some s2 =>
      let r := runCmds env s2 cs
      (r.1, c :: r.2.1, r.2.2)

/-- Run the stages in order with fail-fast abort: a failing stage prevents
every later stage from running. -/
def runStages (env : Env) : PState → List (List Cmd) → PState × List Cmd × Bool
  | s, [] => (s, [], true)
  | s, st :: sts =>
    let r := runCmds env s st
    if r.2.2 then
      let r2 := runStages env r.1 sts
      (r2.1, r.2.1 ++ r2.2.1, r2.2.2)
    else (r.1, r.2.1, false)

/-- Image tag built, pushed and deployed by the pipeline. -/
def imageTag : String :=
  "adityajareda/nodejs-demo-app:latest"

/-- Stage Install Dependencies (src/Jenkinsfile lines 11-16). -/
def installStage : List Cmd :=
  [.echo ("Installing Node.js dependencies ..."), .npmCi]

/-- Stage Run Tests (src/Jenkinsfile lines 18-23). -/
def testStage : List Cmd :=
  [.echo ("Running tests..."), .npmTest]

/-- Stage Build Docker Image (src/Jenkinsfile lines 25-30). -/
def buildStage : List Cmd :=
  [.echo ("Building the Docker image..."), .dockerBuild imageTag]

/-- Stage Push to Docker Hub (src/Jenkinsfile lines 32-40). -/
def pushStage : List Cmd :=
  [.echo ("Pushing image to Docker Hub..."), .dockerLogin, .dockerPush imageTag]

/-- Stage Deploy and Test (src/Jenkinsfile lines 42-61), parametrised by
the run identifier BUILD_NUMBER. -/
def deployAndTestStage (n : Nat) : List Cmd :=
  [.echo ("Deploying test container"),
   .dockerRun (testPort n) (containerName n) imageTag,
   .echo ("Pausing for 5 seconds to allow the application to start..."),
   .sleep 5,
   .echo ("Testing application endpoint..."),
   .curl (testPort n),
   .echo ("Test successful! Stopping container..."),
   .dockerStop (containerName n)]

/-- The five stages of src/Jenkinsfile in their declared order. -/
def pipelineStages (n : Nat) : List (List Cmd) :=
  [installStage, testStage, buildStage, pushStage, deployAndTestStage n]

/-- The post-always block (src/Jenkinsfile lines 65-70). -/
def postAlways : List Cmd :=
  [.echo ("Pipeline finished. Cleaning up..."), .dockerLogout]

/-- One full pipeline run: the stages with fail-fast abort, then the
post-always block unconditionally.  Returns the final host state, the
trace of all commands started, and the overall run result. -/
def runPipeline (env : Env) (n : Nat) : PState × List Cmd × Bool :=
  let r := runStages env ⟨[], false⟩ (pipelineStages n)
  let r2 := runCmds env r.1 postAlways
  (r2.1, r.2.1 ++ r2.2.1, r.2.2)

/-- Recogniser for the probe request command. -/
def isCurl : Cmd → Bool
  | .curl _ => true
  | _ => false

/-- Recogniser for the commands exclusive to the Deploy and Test stage. -/
def isProbeCmd : Cmd → Bool
  | .dockerRun _ _ _ => true
  | .sleep _ => true
  | .curl _ => true
  | .dockerStop _ => true
  | _ => false

/-! ### The Express application of src/app.js -/

/-- An HTTP request as the routing layer sees it. -/
structure Request where
  method : String
  path : String
  headers : List (String × String)
  query : String
  reqBody : String
deriving DecidableEq

/-- An HTTP response: status code and body. -/
structure Response where
  status : Nat
  respBody : String
deriving DecidableEq

/-- The configured internal port of src/app.js line 3. -/
def PORT : Nat := 8080

/-- Routing table of src/app.js: the single registered handler answers a
GET on the root path by sending the fixed text, which Express serves with
status 200; no other route is registered (none). -/
def appHandle (req : Request) : Option Response :=
  if req.method = "GET" && req.path = "/" then
    some ⟨200, "Hello World!"⟩
  else none

/-! ### Claim theorems -/

/-- C1 (counterexample): the port derivation of src/Jenkinsfile is not a
fixed prefix plus the run identifier modulo 100, and it does not stay
within the valid port range for every run identifier: at identifier 100
the derived port is 90100, which exceeds 65535, and identifiers 100 and
200 agree modulo 100 yet get different ports; the README variant with the
modulo also leaves the range, already at identifier 50. -/
theorem port_scheme_counterexample :
    testPort 100 = 90100 ∧ 65535 < testPort 100 ∧
    100 % 100 = 200 % 100 ∧ testPort 100 ≠ testPort 200 ∧
    testPortReadme 50 = 90950 ∧ 65535 < testPortReadme 50 := by
  decide

/-- C1 (amended): the probe stage derives the external port as the decimal
concatenation of the fixed prefix 90 with the full run identifier, with no
modulo applied; the result is a valid TCP port exactly for run identifiers
below 100. -/
theorem port_concatenation_in_range_iff (n : Nat) :
    testPort n = 90 * 10 ^ (decDigits n).length + n ∧
    (testPort n ≤ 65535 ↔ n < 100) := by
  refine ⟨testPort_eq n, ?_, testPort_le_of_lt n⟩
  intro h
  by_contra hn
  push_neg at hn
  have := testPort_gt_of_ge n hn
  omega

/-- C2: for any two run identifiers a and b with a different from b and
a modulo 100 different from b modulo 100, the derived container names
differ and the derived external ports differ. -/
theorem probe_derived_values_no_collision (a b : Nat) (hab : a ≠ b)
    (hmod : a % 100 ≠ b % 100) :
    containerName a ≠ containerName b ∧ testPort a ≠ testPort b :=
  ⟨fun h => hab (containerName_injective h), fun h => hab (testPort_injective h)⟩

theorem probe_derived_values_no_collision_witness :
    containerName 1 ≠ containerName 2 ∧ testPort 1 ≠ testPort 2 :=
  probe_derived_values_no_collision 1 2 (by decide) (by decide)

/-- C3: when every stage up to the deployment succeeds but the health
check fails, the run fails, the started test container is still recorded
as running afterwards, and no docker stop for it appears in the trace of
executed commands. -/
theorem probe_failure_leaves_container_running (env : Env) (n : Nat)
    (h1 : env.npmCiOk = true) (h2 : env.npmTestOk = true)
    (h3 : env.buildOk = true) (h4 : env.loginOk = true)
    (h5 : env.pushOk = true) (h6 : env.runOk = true)
    (h7 : env.curlOk = false) :
    (runPipeline env n).2.2 = false ∧
    containerName n ∈ (runPipeline env n).1.running ∧
    Cmd.dockerStop (containerName n) ∉ (runPipeline env n).2.1 := by
  obtain ⟨a, b, c, d, e, f, g⟩ := env
  dsimp only at h1 h2 h3 h4 h5 h6 h7
  subst h1 h2 h3 h4 h5 h6 h7
  simp [runPipeline, runStages, runCmds, execCmd, pipelineStages, installStage,
    testStage, buildStage, pushStage, deployAndTestStage, postAlways]

theorem probe_failure_leaves_container_running_witness :
    (runPipeline ⟨true, true, true, true, true, true, false⟩ 3).2.2 = false ∧
    containerName 3 ∈ (runPipeline ⟨true, true, true, true, true, true, false⟩ 3).1.running ∧
    Cmd.dockerStop (containerName 3) ∉
      (runPipeline ⟨true, true, true, true, true, true, false⟩ 3).2.1 :=
  probe_failure_leaves_container_running ⟨true, true, true, true, true, true, false⟩ 3
    rfl rfl rfl rfl rfl rfl rfl

/-- C4: when every external command succeeds (the artifact binds its port
within the delay and answers the probe with status 200), the run reports
success, the stop command for the test container is executed, and no
container is left running afterwards. -/
theorem probe_success_reports_and_cleans (env : Env) (n : Nat)
    (h1 : env.npmCiOk = true) (h2 : env.npmTestOk = true)
    (h3 : env.buildOk = true) (h4 : env.loginOk = true)
    (h5 : env.pushOk = true) (h6 : env.runOk = true)
    (h7 : env.curlOk = true) :
    (runPipeline env n).2.2 = true ∧
    Cmd.dockerStop (containerName n) ∈ (runPipeline env n).2.1 ∧
    (runPipeline env n).1.running = [] := by
  obtain ⟨a, b, c, d, e, f, g⟩ := env
  dsimp only at h1 h2 h3 h4 h5 h6 h7
  subst h1 h2 h3 h4 h5 h6 h7
  simp [runPipeline, runStages, runCmds, execCmd, pipelineStages, installStage,
    testStage, buildStage, pushStage, deployAndTestStage, postAlways]

theorem probe_success_reports_and_cleans_witness :
    (runPipeline ⟨true, true, true, true, true, true, true⟩ 3).2.2 = true ∧
    Cmd.dockerStop (containerName 3) ∈
      (runPipeline ⟨true, true, true, true, true, true, true⟩ 3).2.1 ∧
    (runPipeline ⟨true, true, true, true, true, true, true⟩ 3).1.running = [] :=
  probe_success_reports_and_cleans ⟨true, true, true, true, true, true, true⟩ 3
    rfl rfl rfl rfl rfl rfl rfl

/-- C5: when the run reaches the probe with the container started, exactly
one HTTP GET is issued, it targets the derived external port, and a failing
probe makes the run fail. -/
theorem probe_single_get_and_fail_on_error (env : Env) (n : Nat)
    (h1 : env.npmCiOk = true) (h2 : env.npmTestOk = true)
    (h3 : env.buildOk = true) (h4 : env.loginOk = true)
    (h5 : env.pushOk = true) (h6 : env.runOk = true) :
    (runPipeline env n).2.1.countP isCurl = 1 ∧
    Cmd.curl (testPort n) ∈ (runPipeline env n).2.1 ∧
    (env.curlOk = false → (runPipeline env n).2.2 = false) := by
  obtain ⟨a, b, c, d, e, f, g⟩ := env
  dsimp only at h1 h2 h3 h4 h5 h6 ⊢
  subst h1 h2 h3 h4 h5 h6
  cases g <;>
    simp [runPipeline, runStages, runCmds, execCmd, pipelineStages, installStage,
      testStage, buildStage, pushStage, deployAndTestStage, postAlways, isCurl,
      List.countP_cons]

theorem probe_single_get_and_fail_on_error_witness :
    (runPipeline ⟨true, true, true, true, true, true, false⟩ 5).2.1.countP isCurl = 1 ∧
    Cmd.curl (testPort 5) ∈ (runPipeline ⟨true, true, true, true, true, true, false⟩ 5).2.1 ∧
    ((⟨true, true, true, true, true, true, false⟩ : Env).curlOk = false →
      (runPipeline ⟨true, true, true, true, true, true, false⟩ 5).2.2 = false) :=
  probe_single_get_and_fail_on_error ⟨true, true, true, true, true, true, false⟩ 5
    rfl rfl rfl rfl rfl rfl

/-- C6: if the install, test, build, login or push command exits non-zero,
the fail-fast sequential execution never starts any command of the Deploy
and Test stage: no deployment, pause, probe or stop appears in the trace. -/
theorem early_failure_skips_probe_stage (env : Env) (n : Nat)
    (h : env.npmCiOk = false ∨ env.npmTestOk = false ∨ env.buildOk = false ∨
      env.loginOk = false ∨ env.pushOk = false) :
    (runPipeline env n).2.1.countP isProbeCmd = 0 := by
  obtain ⟨a, b, c, d, e, f, g⟩ := env
  dsimp only at h
  cases a <;> cases b <;> cases c <;> cases d <;> cases e <;>
    simp_all [runPipeline, runStages, runCmds, execCmd, pipelineStages, installStage,
      testStage, buildStage, pushStage, deployAndTestStage, postAlways, isProbeCmd,
      List.countP_cons]

theorem early_failure_skips_probe_stage_witness :
    (runPipeline ⟨false, true, true, true, true, true, true⟩ 7).2.1.countP isProbeCmd = 0 :=
  early_failure_skips_probe_stage ⟨false, true, true, true, true, true, true⟩ 7 (Or.inl rfl)

/-- C7: in every run, whatever the outcome of each command, the trace is
the trace of the stages followed by the post-always cleanup block, so the
registry logout executes after the stages in both successful and failing
runs. -/
theorem cleanup_always_runs (env : Env) (n : Nat) :
    (runPipeline env n).2.1 =
      (runStages env ⟨[], false⟩ (pipelineStages n)).2.1 ++
        [Cmd.echo ("Pipeline finished. Cleaning up..."), Cmd.dockerLogout] ∧
    Cmd.dockerLogout ∈ (runPipeline env n).2.1 := by
  have hpost : ∀ s : PState, (runCmds env s postAlways).2.1 =
      [Cmd.echo ("Pipeline finished. Cleaning up..."), Cmd.dockerLogout] := by
    intro s
    simp [runCmds, execCmd, postAlways]
  constructor
  · simp only [runPipeline]
    rw [hpost]
  · simp only [runPipeline]
    rw [hpost]
    simp

/-- C8: the application of src/app.js answers every GET request on the
root path with status 200 and the fixed body, and its configured internal
port is 8080. -/
theorem app_root_get_ok (req : Request) (hm : req.method = "GET")
    (hp : req.path = "/") :
    appHandle req = some ⟨200, "Hello World!"⟩ ∧ PORT = 8080 := by
  constructor
  · simp [appHandle, hm, hp]
  · rfl

theorem app_root_get_ok_witness :
    appHandle ⟨"GET", "/", [], "", ""⟩ = some ⟨200, "Hello World!"⟩ ∧ PORT = 8080 :=
  app_root_get_ok ⟨"GET", "/", [], "", ""⟩ rfl rfl

/-- C9: the port derivation of src/Jenkinsfile applies no modulo: the
derived port is the decimal concatenation of the prefix 90 with the full
run identifier, and for every run identifier of at least 100 it exceeds
65535, leaving the valid TCP port range. -/
theorem port_overflows_for_large_build_number (n : Nat) (h : 100 ≤ n) :
    testPort n = 90 * 10 ^ (decDigits n).length + n ∧ 65535 < testPort n :=
  ⟨testPort_eq n, testPort_gt_of_ge n h⟩

theorem port_overflows_for_large_build_number_witness :
    100 ≤ (100 : Nat) ∧
    (testPort 100 = 90 * 10 ^ (decDigits 100).length + 100 ∧ 65535 < testPort 100) :=
  ⟨by decide, port_overflows_for_large_build_number 100 (by decide)⟩

/-- C10: the root handler of src/app.js is deterministic and independent
of request content: any two GET requests on the root path, whatever their
headers, query string or body, receive the same response. -/
theorem app_root_handler_deterministic (r1 r2 : Request)
    (h1m : r1.method = "GET") (h1p : r1.path = "/")
    (h2m : r2.method = "GET") (h2p : r2.path = "/") :
    appHandle r1 = appHandle r2 := by
  simp [appHandle, h1m, h1p, h2m, h2p]

theorem app_root_handler_deterministic_witness :
    appHandle ⟨"GET", "/", [("X-Request-Id", "1")], "q=1", "payload"⟩ =
      appHandle ⟨"GET", "/", [], "", ""⟩ :=
  app_root_handler_deterministic _ _ rfl rfl rfl rfl

end NodeDemo
